import Mathlib

/-!
# Verification of the httpx retrying transport decorator

A shallow embedding of the retry transport (`retryTransport.RoundTrip`), the
backoff strategies (`ExponentialBackoff`, `JitterBackoff`) and the error
values of the `httpx` package, together with proofs and refutations of the
specification's claims about them.

Modelling conventions:

* Go `error` values are the inductive `GoErr`: `GoErr.new` models a value
  produced by `errors.New` (distinguished by an identity tag, since Go
  compares such errors by pointer identity), and `GoErr.wrapf` models
  `fmt.Errorf` with a single `%w` verb.  `errIs` models `errors.Is`.
* `time.Duration` is `Int` (nanoseconds); arithmetic that Go performs on
  `int64` with wraparound is made explicit through `wrap64`.
* The underlying transport is an oracle `T : Nat -> Except GoErr Response`
  giving the outcome of the n-th underlying-transport invocation.  A
  response for which the retry loop later drains and closes the body
  carries the outcome of those two operations (`drainErr`, `closeErr`).
* `http.Request.GetBody` is an oracle `Nat -> Except GoErr Nat` giving the
  outcome of its n-th call; request bodies are identified by `Nat` tokens.
* The retry loop `rtLoop` is structurally recursive on the number of
  attempts still allowed (`fuel`), exactly the iterations of the Go loop
  `for attempt := 0; attempt <= r.MaxRetries; attempt++`.
* `time.Sleep` never consults the request's context, so a sleep is modelled
  as an event `Ev.sleep d` recording the full delay `d` that elapses.  The
  request's cancellation signal is carried as a field (`ctxCancelled`) that
  the embedded code, like the source, never reads.
-/

namespace Httpx

/-- Go error values: `new i m` models `errors.New m` (with identity tag `i`),
`wrapf m e` models `fmt.Errorf` producing message `m` and wrapping `e` via
a single percent-w verb. -/
inductive GoErr where
  | new (id : Nat) (msg : String)
  | wrapf (msg : String) (inner : GoErr)
deriving DecidableEq, Repr

/-- The `Error()` string of a Go error value. -/
def goMsg : GoErr → String
  | .new _ m => m
  | .wrapf m _ => m

/-- `errors.Is e target`: `e` equals `target` or some error in `e`'s wrap
chain does. -/
def errIs : GoErr → GoErr → Bool
  | e@(.new _ _), t => e == t
  | e@(.wrapf _ inner), t => e == t || errIs inner t

/-- `var ErrAllRetriesFailed = errors.New("all retry attempts failed")`. -/
def errAllRetriesFailed : GoErr := .new 0 "all retry attempts failed"

/-- An `*http.Response` as the retry loop observes it: the status code, and
the outcomes of draining (`io.Copy(io.Discard, resp.Body)`) and of
`resp.Body.Close()` should the loop discard this response. -/
structure Response where
  statusCode : Int
  drainErr : Option GoErr
  closeErr : Option GoErr
deriving DecidableEq, Repr

/-- An `*http.Request` as the retry transport uses it.  `body` is the
current body stream (identified by a token), `getBody` the optional
regeneration capability (an oracle over its call index), and
`ctxCancelled` the externally owned cancellation signal over time —
a field the source never reads. -/
structure Request where
  method : String
  url : String
  headers : List (String × String)
  body : Option Nat
  getBody : Option (Nat → Except GoErr Nat)
  ctxCancelled : Nat → Bool

/-- Observable events of one `RoundTrip` execution, in order: a successful
`GetBody` call installing a fresh body, an underlying-transport invocation
(with the request body it is given), and a backoff sleep for the full
duration `d`. -/
inductive Ev where
  | regen (callIdx : Nat) (newBody : Nat)
  | call (idx : Nat) (body : Option Nat)
  | sleep (d : Int)
deriving DecidableEq, Repr

instance {ε α : Type} [DecidableEq ε] [DecidableEq α] :
    DecidableEq (Except ε α) := fun a b =>
  match a, b with
  | .ok x, .ok y =>
    if h : x = y then .isTrue (by rw [h])
    else .isFalse (fun h2 => h (Except.ok.inj h2))
  | .error x, .error y =>
    if h : x = y then .isTrue (by rw [h])
    else .isFalse (fun h2 => h (Except.error.inj h2))
  | .ok _, .error _ => .isFalse (fun h => Except.noConfusion h)
  | .error _, .ok _ => .isFalse (fun h => Except.noConfusion h)

/-- The outcome of `retryTransport.RoundTrip`: the returned
response-or-error, the request as it is left behind, the number of
underlying-transport invocations, and the event trace. -/
structure RTResult where
  result : Except GoErr Response
  finalReq : Request
  invocations : Nat
  events : List Ev

/-- Lines 95-102 of the transport source: if the request has a body and a
`GetBody` capability, call `GetBody` (here: the oracle at call index `gb`)
and on success install the fresh body; on failure the caller aborts.
Requests without a body or without `GetBody` pass through unchanged. -/
def cloneBody (req : Request) (gb : Nat) :
    Except GoErr (Request × Nat × List Ev) :=
  match req.body, req.getBody with
  | some _, some g =>
    match g gb with
    | .error e => .error e
    | .ok b => .ok ({req with body := some b}, gb + 1, [Ev.regen gb b])
  | _, _ => .ok (req, gb, [])

/-- The body of `retryTransport.RoundTrip`'s loop, recursing on the number
of attempts still allowed (`fuel`); `attempt` is the Go loop counter, `gb`
the number of `GetBody` calls made so far, `calls` the number of
underlying-transport invocations so far, `evs` the accumulated events. -/
def rtLoop (T : Nat → Except GoErr Response) (S : Nat → Int) :
    Nat → Nat → Nat → Nat → List Ev → Request → RTResult
  | 0, _, _, calls, evs, req =>
    ⟨.error errAllRetriesFailed, req, calls, evs⟩
  | fuel + 1, attempt, gb, calls, evs, req =>
    match cloneBody req gb with
    | .error e =>
      ⟨.error (.wrapf ("failed to get request body for retry: " ++ goMsg e) e),
       req, calls, evs⟩
    | .ok (req2, gb2, evC) =>
      let evs1 := evs ++ evC ++ [Ev.call calls req2.body]
      match T calls with
      | .ok resp =>
        if resp.statusCode < 500 then
          ⟨.ok resp, req2, calls + 1, evs1⟩
        else
          match resp.drainErr with
          | some de =>
            ⟨.error (.wrapf ("failed to discard response body: " ++ goMsg de) de),
             req2, calls + 1, evs1⟩
          | none =>
            match resp.closeErr with
            | some ce =>
              ⟨.error (.wrapf ("failed to close response body: " ++ goMsg ce) ce),
               req2, calls + 1, evs1⟩
            | none =>
              if 0 < fuel then
                rtLoop T S fuel (attempt + 1) gb2 (calls + 1)
                  (evs1 ++ [Ev.sleep (S attempt)]) req2
              else
                ⟨.error (.wrapf (goMsg errAllRetriesFailed
                    ++ ": last attempt failed with status "
                    ++ toString resp.statusCode) errAllRetriesFailed),
                 req2, calls + 1, evs1⟩
      | .error e =>
        if 0 < fuel then
          rtLoop T S fuel (attempt + 1) gb2 (calls + 1)
            (evs1 ++ [Ev.sleep (S attempt)]) req2
        else
          ⟨.error (.wrapf ("all retries failed; last error: " ++ goMsg e) e),
           req2, calls + 1, evs1⟩

/-- `retryTransport.RoundTrip` with underlying transport oracle `T`, retry
strategy `S` and `MaxRetries = maxRetries`.  The Go loop runs attempts
`0 .. maxRetries`, i.e. `(maxRetries + 1).toNat` iterations (none when
`maxRetries` is negative, in which case line 190 returns the bare
`ErrAllRetriesFailed`, exactly the `fuel = 0` case of the loop). -/
def roundTrip (T : Nat → Except GoErr Response) (S : Nat → Int)
    (maxRetries : Int) (req : Request) : RTResult :=
  rtLoop T S (maxRetries + 1).toNat 0 0 0 [] req

/-! ## Backoff strategies -/

/-- Reduction of an integer into the `int64` range by two's-complement
wraparound, as Go arithmetic on `time.Duration` behaves. -/
def wrap64 (x : Int) : Int := (x + 2 ^ 63) % 2 ^ 64 - 2 ^ 63

/-- `x` is representable as an `int64`. -/
def inInt64 (x : Int) : Prop := -(2 ^ 63) ≤ x ∧ x < 2 ^ 63

/-- The Go expression `1 << uint(attempt)` at type `time.Duration`
(`int64`): the two's-complement wraparound of `2 ^ attempt`. -/
def shl64 (attempt : Nat) : Int := wrap64 (2 ^ attempt)

/-- `ExponentialBackoff(base, maxDelay)` applied to `attempt` (lines 21-43
of the source): attempt 0 returns `base` unchanged when `base > maxDelay`;
otherwise `delay := base * (1 << uint(attempt))` with `int64` wraparound,
clamped to `maxDelay` when `delay > maxDelay || delay <= 0`. -/
def expBackoffGo (base maxDelay : Int) (attempt : Nat) : Int :=
  if attempt = 0 ∧ maxDelay < base then base
  else
    let delay := wrap64 (base * shl64 attempt)
    if maxDelay < delay ∨ delay ≤ 0 then maxDelay else delay

/-- `JitterBackoff(base, maxDelay)` applied to `attempt` (lines 55-65).
`rnd n` is the oracle for `rand.Int63n(n)`; `none` models the run-time
panic `rand.Int63n` raises when its argument is not positive, which the
source reaches whenever `baseDelay / 2 <= 0` (Go division truncates toward
zero, as `Int.tdiv` does). -/
def jitterBackoffGo (base maxDelay : Int) (rnd : Int → Int) (attempt : Nat) :
    Option Int :=
  let b := expBackoffGo base maxDelay attempt
  if Int.tdiv b 2 ≤ 0 then none
  else some (b + rnd (Int.tdiv b 2))

/-! ## Derived notions used by the claims -/

/-- An underlying-transport outcome the loop treats as retryable and whose
cleanup (drain and close) succeeds: a transport-level error, or a response
with status at least 500 whose body drains and closes cleanly. -/
def retryableClean : Except GoErr Response → Prop
  | .error _ => True
  | .ok r => 500 ≤ r.statusCode ∧ r.drainErr = none ∧ r.closeErr = none

/-- Every `GetBody` call of the request succeeds (vacuous when the request
has no body or no `GetBody`). -/
def regenInv (req : Request) : Prop :=
  ∀ g, req.getBody = some g → req.body ≠ none → ∀ n, ∃ b, g n = Except.ok b

/-- The first `GetBody` call of the request succeeds (vacuous when the
request has no body or no `GetBody`). -/
def regenOk0 (req : Request) : Prop :=
  ∀ g, req.getBody = some g → req.body ≠ none → ∃ b, g 0 = Except.ok b

/-- The delays slept during an execution, in order. -/
def sleepsOf (evs : List Ev) : List Int :=
  evs.filterMap fun e =>
    match e with
    | .sleep d => some d
    | _ => none

/-- Replace the request's cancellation signal. -/
def setCtx (req : Request) (c : Nat → Bool) : Request :=
  {req with ctxCancelled := c}

/-! ## Concrete scenario pieces used by counterexamples and witnesses -/

/-- A plain GET request: no body, no `GetBody`, signal never fired. -/
def reqPlain : Request :=
  ⟨"GET", "http://example.com", [], none, none, fun _ => false⟩

/-- The same request with the cancellation signal fired from the start. -/
def reqCancelledNow : Request :=
  ⟨"GET", "http://example.com", [], none, none, fun _ => true⟩

/-- A transport-level error value used by scenarios. -/
def boomErr : GoErr := .new 1 "boom"

/-- A transport that always fails at the transport level with `boomErr`. -/
def transportBoom : Nat → Except GoErr Response := fun _ => .error boomErr

/-- A transport that always returns a clean 503 response. -/
def transport503 : Nat → Except GoErr Response :=
  fun _ => .ok ⟨503, none, none⟩

/-- A transport that returns a clean 500 on the first invocation and a 200
afterwards. -/
def transport500Then200 : Nat → Except GoErr Response :=
  fun n => if n = 0 then .ok ⟨500, none, none⟩ else .ok ⟨200, none, none⟩

/-- A transport that always returns a 200 response. -/
def transport200 : Nat → Except GoErr Response :=
  fun _ => .ok ⟨200, none, none⟩

/-- A constant retry strategy with a 7ns delay. -/
def strat7 : Nat → Int := fun _ => 7

/-- A `GetBody` oracle that always fails. -/
def getBodyFailErr : GoErr := .new 3 "cannot regenerate body"

/-- A request with a body whose `GetBody` fails on every call. -/
def reqBodyRegenFail : Request :=
  ⟨"POST", "http://example.com", [], some 5,
   some (fun _ => .error getBodyFailErr), fun _ => false⟩

/-- The regeneration failure of the second `GetBody` call. -/
def regenSecondErr : GoErr := .new 4 "regen boom"

/-- A `GetBody` oracle succeeding on its first call and failing afterwards. -/
def getBodySecondFails : Nat → Except GoErr Nat :=
  fun n => if n = 0 then .ok 7 else .error regenSecondErr

/-- A request with a body whose `GetBody` fails from the second call on. -/
def reqBodySecondFails : Request :=
  ⟨"POST", "http://example.com", [], some 5, some getBodySecondFails,
   fun _ => false⟩

/-- A request with a body but no `GetBody` capability. -/
def reqBodyNoGetBody : Request :=
  ⟨"POST", "http://example.com", [], some 9, none, fun _ => false⟩

/-- The drain failure used by scenarios. -/
def drainErrC : GoErr := .new 5 "read failed"

/-- The close failure used by scenarios. -/
def closeErrC : GoErr := .new 6 "close failed"

/-- A transport whose first response is a 500 whose body fails to drain. -/
def transportDrainFail : Nat → Except GoErr Response :=
  fun _ => .ok ⟨500, some drainErrC, some closeErrC⟩

/-- `context.Canceled`, the cancellation error of the Go standard library. -/
def goCtxCanceled : GoErr := .new 2 "context canceled"

/-! ## Step lemmas for the retry loop -/

theorem rtLoop_zero (T : Nat → Except GoErr Response) (S : Nat → Int)
    (attempt gb calls : Nat) (evs : List Ev) (req : Request) :
    rtLoop T S 0 attempt gb calls evs req
      = ⟨.error errAllRetriesFailed, req, calls, evs⟩ := rfl

theorem rtLoop_cloneFail (T : Nat → Except GoErr Response) (S : Nat → Int)
    (fuel attempt gb calls : Nat) (evs : List Ev) (req : Request) (e : GoErr)
    (h : cloneBody req gb = .error e) :
    rtLoop T S (fuel + 1) attempt gb calls evs req
      = ⟨.error (.wrapf ("failed to get request body for retry: " ++ goMsg e) e),
         req, calls, evs⟩ := by
  rw [rtLoop, h]

theorem rtLoop_ok_lt500 (T : Nat → Except GoErr Response) (S : Nat → Int)
    (fuel attempt gb calls : Nat) (evs : List Ev) (req req2 : Request)
    (gb2 : Nat) (evC : List Ev) (resp : Response)
    (hc : cloneBody req gb = .ok (req2, gb2, evC))
    (hT : T calls = .ok resp) (hlt : resp.statusCode < 500) :
    rtLoop T S (fuel + 1) attempt gb calls evs req
      = ⟨.ok resp, req2, calls + 1, evs ++ evC ++ [Ev.call calls req2.body]⟩ := by
  rw [rtLoop, hc]
  simp only [hT, if_pos hlt]

theorem rtLoop_drainFail (T : Nat → Except GoErr Response) (S : Nat → Int)
    (fuel attempt gb calls : Nat) (evs : List Ev) (req req2 : Request)
    (gb2 : Nat) (evC : List Ev) (resp : Response) (de : GoErr)
    (hc : cloneBody req gb = .ok (req2, gb2, evC))
    (hT : T calls = .ok resp) (hge : ¬ resp.statusCode < 500)
    (hd : resp.drainErr = some de) :
    rtLoop T S (fuel + 1) attempt gb calls evs req
      = ⟨.error (.wrapf ("failed to discard response body: " ++ goMsg de) de),
         req2, calls + 1, evs ++ evC ++ [Ev.call calls req2.body]⟩ := by
  rw [rtLoop, hc]
  simp only [hT, if_neg hge, hd]

theorem rtLoop_closeFail (T : Nat → Except GoErr Response) (S : Nat → Int)
    (fuel attempt gb calls : Nat) (evs : List Ev) (req req2 : Request)
    (gb2 : Nat) (evC : List Ev) (resp : Response) (ce : GoErr)
    (hc : cloneBody req gb = .ok (req2, gb2, evC))
    (hT : T calls = .ok resp) (hge : ¬ resp.statusCode < 500)
    (hd : resp.drainErr = none) (hcl : resp.closeErr = some ce) :
    rtLoop T S (fuel + 1) attempt gb calls evs req
      = ⟨.error (.wrapf ("failed to close response body: " ++ goMsg ce) ce),
         req2, calls + 1, evs ++ evC ++ [Ev.call calls req2.body]⟩ := by
  rw [rtLoop, hc]
  simp only [hT, if_neg hge, hd, hcl]

theorem rtLoop_retry_ok (T : Nat → Except GoErr Response) (S : Nat → Int)
    (fuel attempt gb calls : Nat) (evs : List Ev) (req req2 : Request)
    (gb2 : Nat) (evC : List Ev) (resp : Response)
    (hc : cloneBody req gb = .ok (req2, gb2, evC))
    (hT : T calls = .ok resp) (hge : ¬ resp.statusCode < 500)
    (hd : resp.drainErr = none) (hcl : resp.closeErr = none)
    (hfuel : 0 < fuel) :
    rtLoop T S (fuel + 1) attempt gb calls evs req
      = rtLoop T S fuel (attempt + 1) gb2 (calls + 1)
          (evs ++ evC ++ [Ev.call calls req2.body] ++ [Ev.sleep (S attempt)])
          req2 := by
  rw [rtLoop, hc]
  simp only [hT, if_neg hge, hd, hcl, if_pos hfuel]

theorem rtLoop_last_ok (T : Nat → Except GoErr Response) (S : Nat → Int)
    (attempt gb calls : Nat) (evs : List Ev) (req req2 : Request)
    (gb2 : Nat) (evC : List Ev) (resp : Response)
    (hc : cloneBody req gb = .ok (req2, gb2, evC))
    (hT : T calls = .ok resp) (hge : ¬ resp.statusCode < 500)
    (hd : resp.drainErr = none) (hcl : resp.closeErr = none) :
    rtLoop T S 1 attempt gb calls evs req
      = ⟨.error (.wrapf (goMsg errAllRetriesFailed
            ++ ": last attempt failed with status "
            ++ toString resp.statusCode) errAllRetriesFailed),
         req2, calls + 1, evs ++ evC ++ [Ev.call calls req2.body]⟩ := by
  rw [rtLoop, hc]
  simp only [hT, if_neg hge, hd, hcl, lt_irrefl, if_false]

theorem rtLoop_retry_err (T : Nat → Except GoErr Response) (S : Nat → Int)
    (fuel attempt gb calls : Nat) (evs : List Ev) (req req2 : Request)
    (gb2 : Nat) (evC : List Ev) (e : GoErr)
    (hc : cloneBody req gb = .ok (req2, gb2, evC))
    (hT : T calls = .error e) (hfuel : 0 < fuel) :
    rtLoop T S (fuel + 1) attempt gb calls evs req
      = rtLoop T S fuel (attempt + 1) gb2 (calls + 1)
          (evs ++ evC ++ [Ev.call calls req2.body] ++ [Ev.sleep (S attempt)])
          req2 := by
  rw [rtLoop, hc]
  simp only [hT, if_pos hfuel]

theorem rtLoop_last_err (T : Nat → Except GoErr Response) (S : Nat → Int)
    (attempt gb calls : Nat) (evs : List Ev) (req req2 : Request)
    (gb2 : Nat) (evC : List Ev) (e : GoErr)
    (hc : cloneBody req gb = .ok (req2, gb2, evC))
    (hT : T calls = .error e) :
    rtLoop T S 1 attempt gb calls evs req
      = ⟨.error (.wrapf ("all retries failed; last error: " ++ goMsg e) e),
         req2, calls + 1, evs ++ evC ++ [Ev.call calls req2.body]⟩ := by
  rw [rtLoop, hc]
  simp only [hT, lt_irrefl, if_false]

/-! ## Clone-step lemmas -/

theorem cloneBody_noBody (req : Request) (gb : Nat) (h : req.body = none) :
    cloneBody req gb = .ok (req, gb, []) := by
  unfold cloneBody
  rw [h]

theorem cloneBody_noGetBody (req : Request) (gb : Nat)
    (h : req.getBody = none) :
    cloneBody req gb = .ok (req, gb, []) := by
  unfold cloneBody
  rw [h]
  rcases req.body with _ | b <;> rfl

theorem cloneBody_some_ok (req : Request) (gb : Nat) (b0 : Nat)
    (g : Nat → Except GoErr Nat) (b : Nat)
    (hb : req.body = some b0) (hg : req.getBody = some g)
    (hgb : g gb = .ok b) :
    cloneBody req gb
      = .ok ({req with body := some b}, gb + 1, [Ev.regen gb b]) := by
  simp only [cloneBody, hb, hg, hgb]

theorem cloneBody_some_err (req : Request) (gb : Nat) (b0 : Nat)
    (g : Nat → Except GoErr Nat) (e : GoErr)
    (hb : req.body = some b0) (hg : req.getBody = some g)
    (hgb : g gb = .error e) :
    cloneBody req gb = .error e := by
  simp only [cloneBody, hb, hg, hgb]

theorem cloneBody_fields (req req2 : Request) (gb gb2 : Nat) (evC : List Ev)
    (h : cloneBody req gb = .ok (req2, gb2, evC)) :
    req2.method = req.method ∧ req2.url = req.url
      ∧ req2.headers = req.headers ∧ req2.getBody = req.getBody
      ∧ req2.ctxCancelled = req.ctxCancelled := by
  rcases hb : req.body with _ | b0 <;> rcases hg : req.getBody with _ | g
  · rw [cloneBody_noBody req gb hb] at h
    simp only [Except.ok.injEq, Prod.mk.injEq] at h
    obtain ⟨h1, -, -⟩ := h
    subst h1
    exact ⟨rfl, rfl, rfl, hg, rfl⟩
  · rw [cloneBody_noBody req gb hb] at h
    simp only [Except.ok.injEq, Prod.mk.injEq] at h
    obtain ⟨h1, -, -⟩ := h
    subst h1
    exact ⟨rfl, rfl, rfl, hg, rfl⟩
  · rw [cloneBody_noGetBody req gb hg] at h
    simp only [Except.ok.injEq, Prod.mk.injEq] at h
    obtain ⟨h1, -, -⟩ := h
    subst h1
    exact ⟨rfl, rfl, rfl, hg, rfl⟩
  · rcases hgb : g gb with e | b
    · rw [cloneBody_some_err req gb b0 g e hb hg hgb] at h
      cases h
    · rw [cloneBody_some_ok req gb b0 g b hb hg hgb] at h
      simp only [Except.ok.injEq, Prod.mk.injEq] at h
      obtain ⟨h1, -, -⟩ := h
      subst h1
      exact ⟨rfl, rfl, rfl, hg, rfl⟩

theorem cloneBody_ok_of_regenInv (req : Request) (gb : Nat)
    (h : regenInv req) :
    ∃ req2 gb2 evC, cloneBody req gb = .ok (req2, gb2, evC)
      ∧ regenInv req2 := by
  rcases hb : req.body with _ | b0
  · exact ⟨req, gb, [], cloneBody_noBody req gb hb, h⟩
  · rcases hg : req.getBody with _ | g
    · exact ⟨req, gb, [], cloneBody_noGetBody req gb hg, h⟩
    · obtain ⟨b, hgb⟩ := h g hg (by rw [hb]; exact Option.some_ne_none b0) gb
      refine ⟨{req with body := some b}, gb + 1, [Ev.regen gb b],
        cloneBody_some_ok req gb b0 g b hb hg hgb, ?_⟩
      intro g2 hg2 _ n
      exact h g2 hg2 (by rw [hb]; exact Option.some_ne_none b0) n

theorem cloneBody_evC (req req2 : Request) (gb gb2 : Nat) (evC : List Ev)
    (h : cloneBody req gb = .ok (req2, gb2, evC)) :
    evC = [] ∨ ∃ b, evC = [Ev.regen gb b] := by
  rcases hb : req.body with _ | b0
  · rw [cloneBody_noBody req gb hb] at h
    simp only [Except.ok.injEq, Prod.mk.injEq] at h
    exact Or.inl h.2.2.symm
  · rcases hg : req.getBody with _ | g
    · rw [cloneBody_noGetBody req gb hg] at h
      simp only [Except.ok.injEq, Prod.mk.injEq] at h
      exact Or.inl h.2.2.symm
    · rcases hgb : g gb with e | b
      · rw [cloneBody_some_err req gb b0 g e hb hg hgb] at h
        cases h
      · rw [cloneBody_some_ok req gb b0 g b hb hg hgb] at h
        simp only [Except.ok.injEq, Prod.mk.injEq] at h
        exact Or.inr ⟨b, h.2.2.symm⟩

theorem cloneBody_ok_of_regenOk0 (req : Request)
    (h : regenOk0 req) :
    ∃ req2 gb2 evC, cloneBody req 0 = .ok (req2, gb2, evC) := by
  rcases hb : req.body with _ | b0
  · exact ⟨req, 0, [], cloneBody_noBody req 0 hb⟩
  · rcases hg : req.getBody with _ | g
    · exact ⟨req, 0, [], cloneBody_noGetBody req 0 hg⟩
    · obtain ⟨b, hgb⟩ := h g hg (by rw [hb]; exact Option.some_ne_none b0)
      exact ⟨{req with body := some b}, 1, [Ev.regen 0 b],
        cloneBody_some_ok req 0 b0 g b hb hg hgb⟩

/-! ## Event-trace helpers -/

theorem sleep_notin_regen (gb : Nat) (evC : List Ev)
    (h : evC = [] ∨ ∃ b, evC = [Ev.regen gb b]) (d : Int) :
    Ev.sleep d ∉ evC := by
  rcases h with h | ⟨b, h⟩ <;> subst h
  · simp
  · intro hmem
    rw [List.mem_singleton] at hmem
    exact Ev.noConfusion hmem

theorem sleep_mem_append3 (evs evC : List Ev) (c : Nat) (b : Option Nat)
    (d : Int) (hC : ∀ x, Ev.sleep x ∉ evC)
    (h : Ev.sleep d ∈ evs ++ evC ++ [Ev.call c b]) :
    Ev.sleep d ∈ evs := by
  rcases List.mem_append.mp h with h1 | h2
  · rcases List.mem_append.mp h1 with h3 | h4
    · exact h3
    · exact absurd h4 (hC d)
  · rw [List.mem_singleton] at h2
    exact Ev.noConfusion h2

theorem sleep_mem_append4 (evs evC : List Ev) (c : Nat) (b : Option Nat)
    (sd d : Int) (hC : ∀ x, Ev.sleep x ∉ evC)
    (h : Ev.sleep d ∈ evs ++ evC ++ [Ev.call c b] ++ [Ev.sleep sd]) :
    Ev.sleep d ∈ evs ∨ d = sd := by
  rcases List.mem_append.mp h with h1 | h2
  · exact Or.inl (sleep_mem_append3 evs evC c b d hC h1)
  · rw [List.mem_singleton] at h2
    exact Or.inr (Ev.sleep.inj h2)

/-! ## Run-level facts about the retry loop: invocation-count bounds,
event accumulation, and the frame condition on the request -/

theorem rtLoop_facts (T : Nat → Except GoErr Response) (S : Nat → Int)
    (fuel : Nat) :
    ∀ attempt gb calls evs req,
      (calls ≤ (rtLoop T S fuel attempt gb calls evs req).invocations
        ∧ (rtLoop T S fuel attempt gb calls evs req).invocations ≤ calls + fuel)
      ∧ (∃ tail, (rtLoop T S fuel attempt gb calls evs req).events = evs ++ tail)
      ∧ ((rtLoop T S fuel attempt gb calls evs req).finalReq.method = req.method
         ∧ (rtLoop T S fuel attempt gb calls evs req).finalReq.url = req.url
         ∧ (rtLoop T S fuel attempt gb calls evs req).finalReq.headers = req.headers
         ∧ (rtLoop T S fuel attempt gb calls evs req).finalReq.getBody = req.getBody
         ∧ (rtLoop T S fuel attempt gb calls evs req).finalReq.ctxCancelled
             = req.ctxCancelled)
      ∧ (∀ d, Ev.sleep d ∈ (rtLoop T S fuel attempt gb calls evs req).events →
           Ev.sleep d ∈ evs ∨ ∃ x, d = S x) := by
  induction fuel with
  | zero =>
    intro attempt gb calls evs req
    rw [rtLoop_zero]
    exact ⟨⟨by dsimp only; omega, by dsimp only; omega⟩, ⟨[], by simp⟩, ⟨rfl, rfl, rfl, rfl, rfl⟩,
      fun d hd => Or.inl hd⟩
  | succ fuel ih =>
    intro attempt gb calls evs req
    rcases hc : cloneBody req gb with e | ⟨req2, gb2, evC⟩
    · rw [rtLoop_cloneFail T S fuel attempt gb calls evs req e hc]
      exact ⟨⟨by dsimp only; omega, by dsimp only; omega⟩, ⟨[], by simp⟩, ⟨rfl, rfl, rfl, rfl, rfl⟩,
        fun d hd => Or.inl hd⟩
    · obtain ⟨fm, fu, fh, fg, fcx⟩ := cloneBody_fields req req2 gb gb2 evC hc
      have hCs : ∀ x, Ev.sleep x ∉ evC :=
        sleep_notin_regen gb evC (cloneBody_evC req req2 gb gb2 evC hc)
      rcases hT : T calls with e | resp
      · by_cases hf : 0 < fuel
        · rw [rtLoop_retry_err T S fuel attempt gb calls evs req req2 gb2 evC e
            hc hT hf]
          obtain ⟨⟨hA1, hA2⟩, ⟨tail, htail⟩, ⟨g1, g2, g3, g4, g5⟩, hsl⟩ :=
            ih (attempt + 1) gb2 (calls + 1)
              (evs ++ evC ++ [Ev.call calls req2.body] ++ [Ev.sleep (S attempt)])
              req2
          refine ⟨⟨by omega, by omega⟩,
            ⟨evC ++ [Ev.call calls req2.body] ++ [Ev.sleep (S attempt)] ++ tail,
             by rw [htail]; simp⟩,
            ⟨g1.trans fm, g2.trans fu, g3.trans fh, g4.trans fg, g5.trans fcx⟩,
            ?_⟩
          intro d hd
          rcases hsl d hd with hmem | hx
          · rcases sleep_mem_append4 evs evC calls req2.body (S attempt) d hCs
              hmem with h1 | h2
            · exact Or.inl h1
            · exact Or.inr ⟨attempt, h2⟩
          · exact Or.inr hx
        · have h0 : fuel = 0 := by omega
          subst h0
          rw [rtLoop_last_err T S attempt gb calls evs req req2 gb2 evC e hc hT]
          refine ⟨⟨by dsimp only; omega, by dsimp only; omega⟩,
            ⟨evC ++ [Ev.call calls req2.body], by simp⟩,
            ⟨fm, fu, fh, fg, fcx⟩, ?_⟩
          intro d hd
          exact Or.inl (sleep_mem_append3 evs evC calls req2.body d hCs hd)
      · by_cases hlt : resp.statusCode < 500
        · rw [rtLoop_ok_lt500 T S fuel attempt gb calls evs req req2 gb2 evC
            resp hc hT hlt]
          refine ⟨⟨by dsimp only; omega, by dsimp only; omega⟩,
            ⟨evC ++ [Ev.call calls req2.body], by simp⟩,
            ⟨fm, fu, fh, fg, fcx⟩, ?_⟩
          intro d hd
          exact Or.inl (sleep_mem_append3 evs evC calls req2.body d hCs hd)
        · rcases hd : resp.drainErr with _ | de
          · rcases hcl : resp.closeErr with _ | ce
            · by_cases hf : 0 < fuel
              · rw [rtLoop_retry_ok T S fuel attempt gb calls evs req req2 gb2
                  evC resp hc hT hlt hd hcl hf]
                obtain ⟨⟨hA1, hA2⟩, ⟨tail, htail⟩, ⟨g1, g2, g3, g4, g5⟩, hsl⟩ :=
                  ih (attempt + 1) gb2 (calls + 1)
                    (evs ++ evC ++ [Ev.call calls req2.body]
                      ++ [Ev.sleep (S attempt)]) req2
                refine ⟨⟨by omega, by omega⟩,
                  ⟨evC ++ [Ev.call calls req2.body] ++ [Ev.sleep (S attempt)]
                    ++ tail, by rw [htail]; simp⟩,
                  ⟨g1.trans fm, g2.trans fu, g3.trans fh, g4.trans fg,
                   g5.trans fcx⟩, ?_⟩
                intro d2 hd2
                rcases hsl d2 hd2 with hmem | hx
                · rcases sleep_mem_append4 evs evC calls req2.body (S attempt)
                    d2 hCs hmem with h1 | h2
                  · exact Or.inl h1
                  · exact Or.inr ⟨attempt, h2⟩
                · exact Or.inr hx
              · have h0 : fuel = 0 := by omega
                subst h0
                rw [rtLoop_last_ok T S attempt gb calls evs req req2 gb2 evC
                  resp hc hT hlt hd hcl]
                refine ⟨⟨by dsimp only; omega, by dsimp only; omega⟩,
                  ⟨evC ++ [Ev.call calls req2.body], by simp⟩,
                  ⟨fm, fu, fh, fg, fcx⟩, ?_⟩
                intro d2 hd2
                exact Or.inl (sleep_mem_append3 evs evC calls req2.body d2 hCs
                  hd2)
            · rw [rtLoop_closeFail T S fuel attempt gb calls evs req req2 gb2
                evC resp ce hc hT hlt hd hcl]
              refine ⟨⟨by dsimp only; omega, by dsimp only; omega⟩,
                ⟨evC ++ [Ev.call calls req2.body], by simp⟩,
                ⟨fm, fu, fh, fg, fcx⟩, ?_⟩
              intro d2 hd2
              exact Or.inl (sleep_mem_append3 evs evC calls req2.body d2 hCs hd2)
          · rw [rtLoop_drainFail T S fuel attempt gb calls evs req req2 gb2 evC
              resp de hc hT hlt hd]
            refine ⟨⟨by dsimp only; omega, by dsimp only; omega⟩,
              ⟨evC ++ [Ev.call calls req2.body], by simp⟩,
              ⟨fm, fu, fh, fg, fcx⟩, ?_⟩
            intro d2 hd2
            exact Or.inl (sleep_mem_append3 evs evC calls req2.body d2 hCs hd2)

/-! ## The retry loop never reads the cancellation signal -/

theorem cloneBody_setCtx_err (req : Request) (gb : Nat) (c : Nat → Bool)
    (e : GoErr) (h : cloneBody req gb = .error e) :
    cloneBody (setCtx req c) gb = .error e := by
  rcases hb : req.body with _ | b0
  · rw [cloneBody_noBody req gb hb] at h
    cases h
  · rcases hg : req.getBody with _ | g
    · rw [cloneBody_noGetBody req gb hg] at h
      cases h
    · rcases hgb : g gb with e2 | b
      · rw [cloneBody_some_err req gb b0 g e2 hb hg hgb] at h
        cases h
        exact cloneBody_some_err (setCtx req c) gb b0 g e hb hg hgb
      · rw [cloneBody_some_ok req gb b0 g b hb hg hgb] at h
        cases h

theorem cloneBody_setCtx_ok (req : Request) (gb : Nat) (c : Nat → Bool)
    (req2 : Request) (gb2 : Nat) (evC : List Ev)
    (h : cloneBody req gb = .ok (req2, gb2, evC)) :
    cloneBody (setCtx req c) gb = .ok (setCtx req2 c, gb2, evC) := by
  rcases hb : req.body with _ | b0
  · rw [cloneBody_noBody req gb hb] at h
    simp only [Except.ok.injEq, Prod.mk.injEq] at h
    obtain ⟨h1, h2, h3⟩ := h
    subst h1; subst h2; subst h3
    exact cloneBody_noBody (setCtx req c) gb hb
  · rcases hg : req.getBody with _ | g
    · rw [cloneBody_noGetBody req gb hg] at h
      simp only [Except.ok.injEq, Prod.mk.injEq] at h
      obtain ⟨h1, h2, h3⟩ := h
      subst h1; subst h2; subst h3
      exact cloneBody_noGetBody (setCtx req c) gb hg
    · rcases hgb : g gb with e2 | b
      · rw [cloneBody_some_err req gb b0 g e2 hb hg hgb] at h
        cases h
      · rw [cloneBody_some_ok req gb b0 g b hb hg hgb] at h
        simp only [Except.ok.injEq, Prod.mk.injEq] at h
        obtain ⟨h1, h2, h3⟩ := h
        subst h1; subst h2; subst h3
        exact cloneBody_some_ok (setCtx req c) gb b0 g b hb hg hgb

theorem rtLoop_ctx (T : Nat → Except GoErr Response) (S : Nat → Int)
    (fuel : Nat) :
    ∀ attempt gb calls evs req c,
      (rtLoop T S fuel attempt gb calls evs (setCtx req c)).result
          = (rtLoop T S fuel attempt gb calls evs req).result
      ∧ (rtLoop T S fuel attempt gb calls evs (setCtx req c)).invocations
          = (rtLoop T S fuel attempt gb calls evs req).invocations
      ∧ (rtLoop T S fuel attempt gb calls evs (setCtx req c)).events
          = (rtLoop T S fuel attempt gb calls evs req).events := by
  induction fuel with
  | zero =>
    intro attempt gb calls evs req c
    rw [rtLoop_zero, rtLoop_zero]
    exact ⟨rfl, rfl, rfl⟩
  | succ fuel ih =>
    intro attempt gb calls evs req c
    rcases hc : cloneBody req gb with e | ⟨req2, gb2, evC⟩
    · rw [rtLoop_cloneFail T S fuel attempt gb calls evs req e hc,
          rtLoop_cloneFail T S fuel attempt gb calls evs (setCtx req c) e
            (cloneBody_setCtx_err req gb c e hc)]
      exact ⟨rfl, rfl, rfl⟩
    · have hc2 := cloneBody_setCtx_ok req gb c req2 gb2 evC hc
      rcases hT : T calls with e | resp
      · by_cases hf : 0 < fuel
        · rw [rtLoop_retry_err T S fuel attempt gb calls evs req req2 gb2 evC e
              hc hT hf,
            rtLoop_retry_err T S fuel attempt gb calls evs (setCtx req c)
              (setCtx req2 c) gb2 evC e hc2 hT hf]
          exact ih (attempt + 1) gb2 (calls + 1)
            (evs ++ evC ++ [Ev.call calls req2.body] ++ [Ev.sleep (S attempt)])
            req2 c
        · have h0 : fuel = 0 := by omega
          subst h0
          rw [rtLoop_last_err T S attempt gb calls evs req req2 gb2 evC e hc hT,
            rtLoop_last_err T S attempt gb calls evs (setCtx req c)
              (setCtx req2 c) gb2 evC e hc2 hT]
          exact ⟨rfl, rfl, rfl⟩
      · by_cases hlt : resp.statusCode < 500
        · rw [rtLoop_ok_lt500 T S fuel attempt gb calls evs req req2 gb2 evC
              resp hc hT hlt,
            rtLoop_ok_lt500 T S fuel attempt gb calls evs (setCtx req c)
              (setCtx req2 c) gb2 evC resp hc2 hT hlt]
          exact ⟨rfl, rfl, rfl⟩
        · rcases hd : resp.drainErr with _ | de
          · rcases hcl : resp.closeErr with _ | ce
            · by_cases hf : 0 < fuel
              · rw [rtLoop_retry_ok T S fuel attempt gb calls evs req req2 gb2
                    evC resp hc hT hlt hd hcl hf,
                  rtLoop_retry_ok T S fuel attempt gb calls evs (setCtx req c)
                    (setCtx req2 c) gb2 evC resp hc2 hT hlt hd hcl hf]
                exact ih (attempt + 1) gb2 (calls + 1)
                  (evs ++ evC ++ [Ev.call calls req2.body]
                    ++ [Ev.sleep (S attempt)]) req2 c
              · have h0 : fuel = 0 := by omega
                subst h0
                rw [rtLoop_last_ok T S attempt gb calls evs req req2 gb2 evC
                    resp hc hT hlt hd hcl,
                  rtLoop_last_ok T S attempt gb calls evs (setCtx req c)
                    (setCtx req2 c) gb2 evC resp hc2 hT hlt hd hcl]
                exact ⟨rfl, rfl, rfl⟩
            · rw [rtLoop_closeFail T S fuel attempt gb calls evs req req2 gb2
                  evC resp ce hc hT hlt hd hcl,
                rtLoop_closeFail T S fuel attempt gb calls evs (setCtx req c)
                  (setCtx req2 c) gb2 evC resp ce hc2 hT hlt hd hcl]
              exact ⟨rfl, rfl, rfl⟩
          · rw [rtLoop_drainFail T S fuel attempt gb calls evs req req2 gb2 evC
                resp de hc hT hlt hd,
              rtLoop_drainFail T S fuel attempt gb calls evs (setCtx req c)
                (setCtx req2 c) gb2 evC resp de hc2 hT hlt hd]
            exact ⟨rfl, rfl, rfl⟩

/-! ## Exhaustion: when every outcome is retryable with clean cleanup -/

theorem rtLoop_clean (T : Nat → Except GoErr Response) (S : Nat → Int)
    (fuel : Nat) :
    ∀ attempt gb calls evs req, regenInv req →
      (∀ k, k < fuel + 1 → retryableClean (T (calls + k))) →
      (rtLoop T S (fuel + 1) attempt gb calls evs req).invocations
          = calls + fuel + 1
      ∧ (∀ e, T (calls + fuel) = .error e →
          (rtLoop T S (fuel + 1) attempt gb calls evs req).result
            = .error (.wrapf ("all retries failed; last error: " ++ goMsg e) e))
      ∧ (∀ r, T (calls + fuel) = .ok r →
          (rtLoop T S (fuel + 1) attempt gb calls evs req).result
            = .error (.wrapf (goMsg errAllRetriesFailed
                ++ ": last attempt failed with status "
                ++ toString r.statusCode) errAllRetriesFailed)) := by
  induction fuel with
  | zero =>
    intro attempt gb calls evs req hreg hclean
    obtain ⟨req2, gb2, evC, hc, -⟩ := cloneBody_ok_of_regenInv req gb hreg
    rcases hT : T calls with e | resp
    · rw [rtLoop_last_err T S attempt gb calls evs req req2 gb2 evC e hc hT]
      refine ⟨rfl, ?_, ?_⟩
      · intro e2 he2
        rw [show calls + 0 = calls from rfl, hT] at he2
        cases he2
        rfl
      · intro r hr
        rw [show calls + 0 = calls from rfl, hT] at hr
        cases hr
    · have hrc : 500 ≤ resp.statusCode ∧ resp.drainErr = none
          ∧ resp.closeErr = none := by
        have h0 := hclean 0 (by omega)
        rw [show calls + 0 = calls from rfl, hT] at h0
        exact h0
      obtain ⟨h500, hdn, hcn⟩ := hrc
      rw [rtLoop_last_ok T S attempt gb calls evs req req2 gb2 evC resp hc hT
        (by omega) hdn hcn]
      refine ⟨rfl, ?_, ?_⟩
      · intro e2 he2
        rw [show calls + 0 = calls from rfl, hT] at he2
        cases he2
      · intro r hr
        rw [show calls + 0 = calls from rfl, hT] at hr
        cases hr
        rfl
  | succ fuel ih =>
    intro attempt gb calls evs req hreg hclean
    obtain ⟨req2, gb2, evC, hc, hreg2⟩ := cloneBody_ok_of_regenInv req gb hreg
    have hclean2 : ∀ k, k < fuel + 1 → retryableClean (T (calls + 1 + k)) := by
      intro k hk
      have := hclean (k + 1) (by omega)
      rw [show calls + (k + 1) = calls + 1 + k from by omega] at this
      exact this
    have hidx : calls + (fuel + 1) = calls + 1 + fuel := by omega
    rcases hT : T calls with e | resp
    · rw [rtLoop_retry_err T S (fuel + 1) attempt gb calls evs req req2 gb2 evC
        e hc hT (by omega)]
      obtain ⟨ihI, ihE, ihO⟩ := ih (attempt + 1) gb2 (calls + 1)
        (evs ++ evC ++ [Ev.call calls req2.body] ++ [Ev.sleep (S attempt)])
        req2 hreg2 hclean2
      refine ⟨by omega, ?_, ?_⟩
      · intro e2 he2
        rw [hidx] at he2
        exact ihE e2 he2
      · intro r hr
        rw [hidx] at hr
        exact ihO r hr
    · have hrc : 500 ≤ resp.statusCode ∧ resp.drainErr = none
          ∧ resp.closeErr = none := by
        have h0 := hclean 0 (by omega)
        rw [show calls + 0 = calls from rfl, hT] at h0
        exact h0
      obtain ⟨h500, hdn, hcn⟩ := hrc
      rw [rtLoop_retry_ok T S (fuel + 1) attempt gb calls evs req req2 gb2 evC
        resp hc hT (by omega) hdn hcn (by omega)]
      obtain ⟨ihI, ihE, ihO⟩ := ih (attempt + 1) gb2 (calls + 1)
        (evs ++ evC ++ [Ev.call calls req2.body] ++ [Ev.sleep (S attempt)])
        req2 hreg2 hclean2
      refine ⟨by omega, ?_, ?_⟩
      · intro e2 he2
        rw [hidx] at he2
        exact ihE e2 he2
      · intro r hr
        rw [hidx] at hr
        exact ihO r hr

/-! ## Aborting on a drain or close failure at attempt k -/

theorem rtLoop_abort (T : Nat → Except GoErr Response) (S : Nat → Int)
    (k : Nat) :
    ∀ fuel attempt gb calls evs req, k < fuel → regenInv req →
      (∀ j, j < k → retryableClean (T (calls + j))) →
      (∀ r de, T (calls + k) = .ok r → ¬ r.statusCode < 500 →
          r.drainErr = some de →
          (rtLoop T S fuel attempt gb calls evs req).result
            = .error (.wrapf ("failed to discard response body: " ++ goMsg de)
                de)
          ∧ (rtLoop T S fuel attempt gb calls evs req).invocations
              = calls + k + 1)
      ∧ (∀ r ce, T (calls + k) = .ok r → ¬ r.statusCode < 500 →
          r.drainErr = none → r.closeErr = some ce →
          (rtLoop T S fuel attempt gb calls evs req).result
            = .error (.wrapf ("failed to close response body: " ++ goMsg ce) ce)
          ∧ (rtLoop T S fuel attempt gb calls evs req).invocations
              = calls + k + 1) := by
  induction k with
  | zero =>
    intro fuel attempt gb calls evs req hk hreg hpre
    obtain ⟨f, rfl⟩ : ∃ f, fuel = f + 1 := ⟨fuel - 1, by omega⟩
    obtain ⟨req2, gb2, evC, hc, -⟩ := cloneBody_ok_of_regenInv req gb hreg
    constructor
    · intro r de hT hge hdd
      rw [show calls + 0 = calls from rfl] at hT
      rw [rtLoop_drainFail T S f attempt gb calls evs req req2 gb2 evC r de hc
        hT hge hdd]
      exact ⟨rfl, rfl⟩
    · intro r ce hT hge hdn hcc
      rw [show calls + 0 = calls from rfl] at hT
      rw [rtLoop_closeFail T S f attempt gb calls evs req req2 gb2 evC r ce hc
        hT hge hdn hcc]
      exact ⟨rfl, rfl⟩
  | succ k ih =>
    intro fuel attempt gb calls evs req hk hreg hpre
    obtain ⟨f, rfl⟩ : ∃ f, fuel = f + 1 := ⟨fuel - 1, by omega⟩
    obtain ⟨req2, gb2, evC, hc, hreg2⟩ := cloneBody_ok_of_regenInv req gb hreg
    have hr0 := hpre 0 (by omega)
    rw [show calls + 0 = calls from rfl] at hr0
    have hpre2 : ∀ j, j < k → retryableClean (T (calls + 1 + j)) := by
      intro j hj
      have := hpre (j + 1) (by omega)
      rw [show calls + (j + 1) = calls + 1 + j from by omega] at this
      exact this
    have hf : 0 < f := by omega
    have hidx : calls + (k + 1) = calls + 1 + k := by omega
    rcases hT0 : T calls with e | resp
    · rw [rtLoop_retry_err T S f attempt gb calls evs req req2 gb2 evC e hc hT0
        hf]
      obtain ⟨ihA, ihB⟩ := ih f (attempt + 1) gb2 (calls + 1)
        (evs ++ evC ++ [Ev.call calls req2.body] ++ [Ev.sleep (S attempt)])
        req2 (by omega) hreg2 hpre2
      constructor
      · intro r de hT hge hdd
        rw [hidx] at hT
        obtain ⟨hres, hinv⟩ := ihA r de hT hge hdd
        exact ⟨hres, by omega⟩
      · intro r ce hT hge hdn hcc
        rw [hidx] at hT
        obtain ⟨hres, hinv⟩ := ihB r ce hT hge hdn hcc
        exact ⟨hres, by omega⟩
    · rw [hT0] at hr0
      have hrc : 500 ≤ resp.statusCode ∧ resp.drainErr = none
          ∧ resp.closeErr = none := hr0
      obtain ⟨h500, hdn, hcn⟩ := hrc
      rw [rtLoop_retry_ok T S f attempt gb calls evs req req2 gb2 evC resp hc
        hT0 (by omega) hdn hcn hf]
      obtain ⟨ihA, ihB⟩ := ih f (attempt + 1) gb2 (calls + 1)
        (evs ++ evC ++ [Ev.call calls req2.body] ++ [Ev.sleep (S attempt)])
        req2 (by omega) hreg2 hpre2
      constructor
      · intro r de hT hge hdd
        rw [hidx] at hT
        obtain ⟨hres, hinv⟩ := ihA r de hT hge hdd
        exact ⟨hres, by omega⟩
      · intro r ce hT hge hdn hcc
        rw [hidx] at hT
        obtain ⟨hres, hinv⟩ := ihB r ce hT hge hdn hcc
        exact ⟨hres, by omega⟩

/-! ## Miscellaneous helpers -/

theorem roundTrip_toNat (T : Nat → Except GoErr Response) (S : Nat → Int)
    (m : Int) (req : Request) (hm : 0 ≤ m) :
    roundTrip T S m req = rtLoop T S (m.toNat + 1) 0 0 0 [] req := by
  have h : (m + 1).toNat = m.toNat + 1 := by omega
  unfold roundTrip
  rw [h]

theorem errIs_refl (e : GoErr) : errIs e e = true := by
  cases e <;> simp [errIs]

theorem errIs_wrap_self (msg : String) (e : GoErr) :
    errIs (.wrapf msg e) e = true := by
  simp [errIs, errIs_refl]

theorem errIs_wrapf_new (msg : String) (e : GoErr) (i : Nat) (s : String)
    (h2 : errIs e (.new i s) = false) :
    errIs (.wrapf msg e) (.new i s) = false := by
  simp [errIs, h2]

theorem wrap64_eq_self (x : Int) (h1 : -(2 ^ 63) ≤ x) (h2 : x < 2 ^ 63) :
    wrap64 x = x := by
  have e1 : (2:Int) ^ 63 = 9223372036854775808 := by norm_num
  have e2 : (2:Int) ^ 64 = 18446744073709551616 := by norm_num
  unfold wrap64
  rw [e1, e2] at *
  rw [Int.emod_eq_of_lt (by omega) (by omega)]
  omega

theorem wrap64_mul_congr (a b : Int) :
    wrap64 (a * wrap64 b) = wrap64 (a * b) := by
  unfold wrap64
  have h1 : a * ((b + 2 ^ 63) % 2 ^ 64 - 2 ^ 63)
      = a * b + 2 ^ 64 * (-(a * ((b + 2 ^ 63) / 2 ^ 64))) := by
    rw [Int.emod_def]
    ring
  rw [h1]
  have h2 : a * b + 2 ^ 64 * (-(a * ((b + 2 ^ 63) / 2 ^ 64))) + 2 ^ 63
      = a * b + 2 ^ 63 + 2 ^ 64 * (-(a * ((b + 2 ^ 63) / 2 ^ 64))) := by
    ring
  rw [h2, Int.add_mul_emod_self_left]

/-- A transport invocation happens as soon as the clone step of an
iteration succeeds. -/
theorem rtLoop_ge_one (T : Nat → Except GoErr Response) (S : Nat → Int)
    (fuel attempt gb calls : Nat) (evs : List Ev) (req req2 : Request)
    (gb2 : Nat) (evC : List Ev)
    (hc : cloneBody req gb = .ok (req2, gb2, evC)) :
    calls + 1 ≤ (rtLoop T S (fuel + 1) attempt gb calls evs req).invocations := by
  rcases hT : T calls with e | resp
  · by_cases hf : 0 < fuel
    · rw [rtLoop_retry_err T S fuel attempt gb calls evs req req2 gb2 evC e hc
        hT hf]
      obtain ⟨⟨hge, -⟩, -, -, -⟩ := rtLoop_facts T S fuel (attempt + 1) gb2
        (calls + 1)
        (evs ++ evC ++ [Ev.call calls req2.body] ++ [Ev.sleep (S attempt)]) req2
      omega
    · have h0 : fuel = 0 := by omega
      subst h0
      rw [rtLoop_last_err T S attempt gb calls evs req req2 gb2 evC e hc hT]
  · by_cases hlt : resp.statusCode < 500
    · rw [rtLoop_ok_lt500 T S fuel attempt gb calls evs req req2 gb2 evC resp
        hc hT hlt]
    · rcases hdr : resp.drainErr with _ | de
      · rcases hcl : resp.closeErr with _ | ce
        · by_cases hf : 0 < fuel
          · rw [rtLoop_retry_ok T S fuel attempt gb calls evs req req2 gb2 evC
              resp hc hT hlt hdr hcl hf]
            obtain ⟨⟨hge, -⟩, -, -, -⟩ := rtLoop_facts T S fuel (attempt + 1)
              gb2 (calls + 1)
              (evs ++ evC ++ [Ev.call calls req2.body] ++ [Ev.sleep (S attempt)])
              req2
            omega
          · have h0 : fuel = 0 := by omega
            subst h0
            rw [rtLoop_last_ok T S attempt gb calls evs req req2 gb2 evC resp
              hc hT hlt hdr hcl]
        · rw [rtLoop_closeFail T S fuel attempt gb calls evs req req2 gb2 evC
            resp ce hc hT hlt hdr hcl]
      · rw [rtLoop_drainFail T S fuel attempt gb calls evs req req2 gb2 evC
          resp de hc hT hlt hdr]

/-- Without a `GetBody` capability the loop never touches the request. -/
theorem rtLoop_noGetBody_req (T : Nat → Except GoErr Response) (S : Nat → Int)
    (fuel : Nat) :
    ∀ attempt gb calls evs req, req.getBody = none →
      (rtLoop T S fuel attempt gb calls evs req).finalReq = req := by
  induction fuel with
  | zero =>
    intro attempt gb calls evs req _
    rw [rtLoop_zero]
  | succ fuel ih =>
    intro attempt gb calls evs req hg
    have hc := cloneBody_noGetBody req gb hg
    rcases hT : T calls with e | resp
    · by_cases hf : 0 < fuel
      · rw [rtLoop_retry_err T S fuel attempt gb calls evs req req gb [] e hc
          hT hf]
        exact ih _ _ _ _ _ hg
      · have h0 : fuel = 0 := by omega
        subst h0
        rw [rtLoop_last_err T S attempt gb calls evs req req gb [] e hc hT]
    · by_cases hlt : resp.statusCode < 500
      · rw [rtLoop_ok_lt500 T S fuel attempt gb calls evs req req gb [] resp hc
          hT hlt]
      · rcases hdr : resp.drainErr with _ | de
        · rcases hcl : resp.closeErr with _ | ce
          · by_cases hf : 0 < fuel
            · rw [rtLoop_retry_ok T S fuel attempt gb calls evs req req gb []
                resp hc hT hlt hdr hcl hf]
              exact ih _ _ _ _ _ hg
            · have h0 : fuel = 0 := by omega
              subst h0
              rw [rtLoop_last_ok T S attempt gb calls evs req req gb [] resp hc
                hT hlt hdr hcl]
          · rw [rtLoop_closeFail T S fuel attempt gb calls evs req req gb []
              resp ce hc hT hlt hdr hcl]
        · rw [rtLoop_drainFail T S fuel attempt gb calls evs req req gb [] resp
            de hc hT hlt hdr]

/-- After a successful clone, the event trace starts with the clone's
events and the first transport invocation. -/
theorem rtLoop_events_shape (T : Nat → Except GoErr Response) (S : Nat → Int)
    (fuel attempt gb calls : Nat) (evs : List Ev) (req req2 : Request)
    (gb2 : Nat) (evC : List Ev)
    (hc : cloneBody req gb = .ok (req2, gb2, evC)) :
    ∃ rest, (rtLoop T S (fuel + 1) attempt gb calls evs req).events
        = evs ++ evC ++ [Ev.call calls req2.body] ++ rest := by
  rcases hT : T calls with e | resp
  · by_cases hf : 0 < fuel
    · rw [rtLoop_retry_err T S fuel attempt gb calls evs req req2 gb2 evC e hc
        hT hf]
      obtain ⟨-, ⟨tail, htail⟩, -, -⟩ := rtLoop_facts T S fuel (attempt + 1)
        gb2 (calls + 1)
        (evs ++ evC ++ [Ev.call calls req2.body] ++ [Ev.sleep (S attempt)]) req2
      exact ⟨[Ev.sleep (S attempt)] ++ tail, by rw [htail]; simp⟩
    · have h0 : fuel = 0 := by omega
      subst h0
      rw [rtLoop_last_err T S attempt gb calls evs req req2 gb2 evC e hc hT]
      exact ⟨[], by simp⟩
  · by_cases hlt : resp.statusCode < 500
    · rw [rtLoop_ok_lt500 T S fuel attempt gb calls evs req req2 gb2 evC resp
        hc hT hlt]
      exact ⟨[], by simp⟩
    · rcases hdr : resp.drainErr with _ | de
      · rcases hcl : resp.closeErr with _ | ce
        · by_cases hf : 0 < fuel
          · rw [rtLoop_retry_ok T S fuel attempt gb calls evs req req2 gb2 evC
              resp hc hT hlt hdr hcl hf]
            obtain ⟨-, ⟨tail, htail⟩, -, -⟩ := rtLoop_facts T S fuel
              (attempt + 1) gb2 (calls + 1)
              (evs ++ evC ++ [Ev.call calls req2.body] ++ [Ev.sleep (S attempt)])
              req2
            exact ⟨[Ev.sleep (S attempt)] ++ tail, by rw [htail]; simp⟩
          · have h0 : fuel = 0 := by omega
            subst h0
            rw [rtLoop_last_ok T S attempt gb calls evs req req2 gb2 evC resp
              hc hT hlt hdr hcl]
            exact ⟨[], by simp⟩
        · rw [rtLoop_closeFail T S fuel attempt gb calls evs req req2 gb2 evC
            resp ce hc hT hlt hdr hcl]
          exact ⟨[], by simp⟩
      · rw [rtLoop_drainFail T S fuel attempt gb calls evs req req2 gb2 evC
          resp de hc hT hlt hdr]
        exact ⟨[], by simp⟩

/-! ## The claims -/

/-- C3: for every request and transport outcome with no transport-level
error and status below 500, `RoundTrip` returns that response immediately:
exactly one underlying-transport invocation, no error, and no backoff
sleep, regardless of `maxRetries` (non-negative per the constructor
contract); the body-regeneration step before the first attempt is assumed
to succeed, since otherwise the transport is never invoked. -/
theorem C3_lt500_immediate (T : Nat → Except GoErr Response) (S : Nat → Int)
    (m : Int) (req : Request) (r : Response) (hm : 0 ≤ m)
    (hreg : regenOk0 req) (hT : T 0 = .ok r) (hlt : r.statusCode < 500) :
    (roundTrip T S m req).result = .ok r
    ∧ (roundTrip T S m req).invocations = 1
    ∧ sleepsOf (roundTrip T S m req).events = [] := by
  rw [roundTrip_toNat T S m req hm]
  obtain ⟨req2, gb2, evC, hc⟩ := cloneBody_ok_of_regenOk0 req hreg
  rw [rtLoop_ok_lt500 T S m.toNat 0 0 0 [] req req2 gb2 evC r hc hT hlt]
  refine ⟨rfl, rfl, ?_⟩
  rcases cloneBody_evC req req2 0 gb2 evC hc with hC | ⟨b, hC⟩ <;> subst hC
  · rfl
  · rfl

/-- Witness for C3: a transport answering 200 with maxRetries 3 returns the
response after one invocation. -/
theorem C3_lt500_immediate_witness :
    (0:Int) ≤ 3
    ∧ transport200 0 = .ok ⟨200, none, none⟩
    ∧ (200:Int) < 500
    ∧ (roundTrip transport200 strat7 3 reqPlain).result = .ok ⟨200, none, none⟩
    ∧ (roundTrip transport200 strat7 3 reqPlain).invocations = 1 := by
  have h := C3_lt500_immediate transport200 strat7 3 reqPlain ⟨200, none, none⟩
    (by decide) (by intro g hg hb; simp [reqPlain] at hg) rfl (by decide)
  exact ⟨by decide, rfl, by decide, h.1, h.2.1⟩

/-- C9: across the whole retry loop, only the request's body field is ever
mutated; its method, target address, headers (and even its `GetBody`
capability) are unchanged when `RoundTrip` returns. -/
theorem C9_frame (T : Nat → Except GoErr Response) (S : Nat → Int)
    (m : Int) (req : Request) :
    (roundTrip T S m req).finalReq.method = req.method
    ∧ (roundTrip T S m req).finalReq.url = req.url
    ∧ (roundTrip T S m req).finalReq.headers = req.headers
    ∧ (roundTrip T S m req).finalReq.getBody = req.getBody := by
  unfold roundTrip
  obtain ⟨-, -, ⟨f1, f2, f3, f4, -⟩, -⟩ :=
    rtLoop_facts T S (m + 1).toNat 0 0 0 [] req
  exact ⟨f1, f2, f3, f4⟩

/-- C10: when the request has a body and a `GetBody` capability, the loop
calls `GetBody` and installs the fresh body before the first
underlying-transport invocation too (attempt 0): if the first `GetBody`
call fails, `RoundTrip` returns its error with zero transport invocations
and an empty trace; if it succeeds with body `b`, the trace starts with
that regeneration followed by the first invocation carrying `b`. -/
theorem C10_regen_before_first (T : Nat → Except GoErr Response)
    (S : Nat → Int) (m : Int) (req : Request) (g : Nat → Except GoErr Nat)
    (b0 : Nat) (hg : req.getBody = some g) (hb : req.body = some b0)
    (hm : 0 ≤ m) :
    (∀ e, g 0 = .error e →
      (roundTrip T S m req).result
          = .error (.wrapf ("failed to get request body for retry: "
              ++ goMsg e) e)
      ∧ (roundTrip T S m req).invocations = 0
      ∧ (roundTrip T S m req).events = [])
    ∧ (∀ b, g 0 = .ok b →
      ∃ rest, (roundTrip T S m req).events
          = Ev.regen 0 b :: Ev.call 0 (some b) :: rest) := by
  rw [roundTrip_toNat T S m req hm]
  constructor
  · intro e he
    rw [rtLoop_cloneFail T S m.toNat 0 0 0 [] req e
      (cloneBody_some_err req 0 b0 g e hb hg he)]
    exact ⟨rfl, rfl, rfl⟩
  · intro b hbb
    have hc := cloneBody_some_ok req 0 b0 g b hb hg hbb
    obtain ⟨rest, hre⟩ := rtLoop_events_shape T S m.toNat 0 0 0 [] req
      {req with body := some b} 1 [Ev.regen 0 b] hc
    exact ⟨rest, by rw [hre]; simp⟩

/-- Witness for C10: a request whose `GetBody` always fails yields the
wrapped regeneration error with zero transport invocations. -/
theorem C10_regen_before_first_witness :
    (0:Int) ≤ 2
    ∧ (roundTrip transport503 strat7 2 reqBodyRegenFail).result
        = .error (.wrapf ("failed to get request body for retry: "
            ++ goMsg getBodyFailErr) getBodyFailErr)
    ∧ (roundTrip transport503 strat7 2 reqBodyRegenFail).invocations = 0 := by
  have h := C10_regen_before_first transport503 strat7 2 reqBodyRegenFail
    (fun _ => .error getBodyFailErr) 5 rfl rfl (by decide)
  exact ⟨by decide, (h.1 getBodyFailErr rfl).1, (h.1 getBodyFailErr rfl).2.1⟩

/-- C4 counterexample: a request whose body-regeneration capability fails
before the first attempt is processed by `RoundTrip` with ZERO
underlying-transport invocations, although the claim asserts the count is
always between 1 and maxRetries + 1 (here maxRetries = 2 is non-negative). -/
theorem C4_counterexample :
    (roundTrip transport503 strat7 2 reqBodyRegenFail).invocations = 0 := by
  rfl

/-- C4 (amended): the invocation count never exceeds maxRetries + 1; it is
at least 1 provided the body-regeneration step before the first attempt
succeeds (whenever one is required); and when regeneration always succeeds
and every outcome is retryable with clean cleanup, the count is exactly
maxRetries + 1 and an error is returned. -/
theorem C4_invocation_bounds (T : Nat → Except GoErr Response)
    (S : Nat → Int) (m : Int) (req : Request) (hm : 0 ≤ m) :
    (roundTrip T S m req).invocations ≤ m.toNat + 1
    ∧ (regenOk0 req → 1 ≤ (roundTrip T S m req).invocations)
    ∧ (regenInv req → (∀ k, retryableClean (T k)) →
        (roundTrip T S m req).invocations = m.toNat + 1
        ∧ ∃ e, (roundTrip T S m req).result = .error e) := by
  rw [roundTrip_toNat T S m req hm]
  refine ⟨?_, ?_, ?_⟩
  · obtain ⟨⟨-, hle⟩, -, -, -⟩ := rtLoop_facts T S (m.toNat + 1) 0 0 0 [] req
    omega
  · intro hreg
    obtain ⟨req2, gb2, evC, hc⟩ := cloneBody_ok_of_regenOk0 req hreg
    have h := rtLoop_ge_one T S m.toNat 0 0 0 [] req req2 gb2 evC hc
    omega
  · intro hreg hTall
    obtain ⟨hI, hE, hO⟩ := rtLoop_clean T S m.toNat 0 0 0 [] req hreg
      (fun k _ => hTall (0 + k))
    refine ⟨by omega, ?_⟩
    rcases hT : T (0 + m.toNat) with e | r
    · exact ⟨_, hE e hT⟩
    · exact ⟨_, hO r hT⟩

/-- Witness for C4: an always-503 transport with maxRetries 2 makes exactly
3 invocations and fails. -/
theorem C4_invocation_bounds_witness :
    (0:Int) ≤ 2
    ∧ (roundTrip transport503 strat7 2 reqPlain).invocations = 3
    ∧ ∃ e, (roundTrip transport503 strat7 2 reqPlain).result = .error e := by
  have h := (C4_invocation_bounds transport503 strat7 2 reqPlain
    (by decide)).2.2 (by intro g hg hb; simp [reqPlain] at hg)
    (by intro k; exact ⟨by norm_num, rfl, rfl⟩)
  exact ⟨by decide, h.1, h.2⟩

/-- C1 counterexample: when the last failure is a transport-level error,
the returned error wraps that error but does NOT match the
`ErrAllRetriesFailed` marker (the source builds it with
`fmt.Errorf("all retries failed; last error: %w", err)`, which does not
wrap the marker), contradicting the claim that both exhaustion cases are
distinguishable via the marker. -/
theorem C1_counterexample :
    (roundTrip transportBoom strat7 1 reqPlain).result
        = .error (.wrapf ("all retries failed; last error: " ++ goMsg boomErr)
            boomErr)
    ∧ errIs (.wrapf ("all retries failed; last error: " ++ goMsg boomErr)
        boomErr) errAllRetriesFailed = false
    ∧ errIs (.wrapf ("all retries failed; last error: " ++ goMsg boomErr)
        boomErr) boomErr = true := by
  refine ⟨rfl, by decide, by decide⟩

/-- C1 (amended): on exhaustion, if the last failure was a transport-level
error the returned error wraps that original error (so unwrapping finds
it) but does not match the `ErrAllRetriesFailed` marker (assuming the
transport's own error does not itself match it); if the last failure was a
response with status at least 500, the returned error carries the status
code in its message and does match the marker. -/
theorem C1_exhaustion_errors (T : Nat → Except GoErr Response)
    (S : Nat → Int) (m : Int) (req : Request) (hm : 0 ≤ m)
    (hreg : regenInv req)
    (hclean : ∀ k, k < m.toNat + 1 → retryableClean (T k)) :
    (∀ e, T m.toNat = .error e →
        (roundTrip T S m req).result
          = .error (.wrapf ("all retries failed; last error: " ++ goMsg e) e)
        ∧ errIs (.wrapf ("all retries failed; last error: " ++ goMsg e) e) e
            = true
        ∧ (errIs e errAllRetriesFailed = false →
            errIs (.wrapf ("all retries failed; last error: " ++ goMsg e) e)
              errAllRetriesFailed = false))
    ∧ (∀ r, T m.toNat = .ok r →
        (roundTrip T S m req).result
          = .error (.wrapf (goMsg errAllRetriesFailed
              ++ ": last attempt failed with status "
              ++ toString r.statusCode) errAllRetriesFailed)
        ∧ errIs (.wrapf (goMsg errAllRetriesFailed
            ++ ": last attempt failed with status "
            ++ toString r.statusCode) errAllRetriesFailed) errAllRetriesFailed
            = true) := by
  rw [roundTrip_toNat T S m req hm]
  obtain ⟨hI, hE, hO⟩ := rtLoop_clean T S m.toNat 0 0 0 [] req hreg
    (by intro k hk; rw [Nat.zero_add]; exact hclean k hk)
  rw [Nat.zero_add] at hE hO
  constructor
  · intro e he
    exact ⟨hE e he, errIs_wrap_self _ e,
      fun hfalse => errIs_wrapf_new _ e 0 "all retry attempts failed" hfalse⟩
  · intro r hr
    exact ⟨hO r hr, errIs_wrap_self _ errAllRetriesFailed⟩

/-- Witness for C1 (amended): an always-failing transport with
maxRetries 0 yields the wrapped transport error. -/
theorem C1_exhaustion_errors_witness :
    (0:Int) ≤ 0
    ∧ (roundTrip transportBoom strat7 0 reqPlain).result
        = .error (.wrapf ("all retries failed; last error: " ++ goMsg boomErr)
            boomErr) := by
  have h := C1_exhaustion_errors transportBoom strat7 0 reqPlain (by decide)
    (by intro g hg hb; simp [reqPlain] at hg)
    (by intro k hk; exact trivial)
  exact ⟨by decide, (h.1 boomErr rfl).1⟩

/-- C2 counterexample: a request with a body but NO `GetBody` capability is
not aborted when a retry is needed: the loop simply retries with the
existing body, here completing a second attempt and returning its 200
response, contradicting the claimed immediate "failed to obtain replayable
body" abort. -/
theorem C2_counterexample :
    reqBodyNoGetBody.body = some 9
    ∧ reqBodyNoGetBody.getBody = none
    ∧ (roundTrip transport500Then200 strat7 1 reqBodyNoGetBody).result
        = .ok ⟨200, none, none⟩
    ∧ (roundTrip transport500Then200 strat7 1 reqBodyNoGetBody).invocations
        = 2 := by
  exact ⟨rfl, rfl, rfl, rfl⟩

/-- C2 (amended): when `GetBody` is absent the loop does not abort — the
retry proceeds, reusing the request unchanged (body included); when
`GetBody` is present but its second call (the one preparing the retry)
fails, `RoundTrip` aborts immediately with an error wrapping the
regeneration failure, after exactly one transport invocation. -/
theorem C2_body_regen (T : Nat → Except GoErr Response) (S : Nat → Int)
    (m : Int) (req : Request) (hm : 1 ≤ m) :
    (req.getBody = none → retryableClean (T 0) →
        2 ≤ (roundTrip T S m req).invocations
        ∧ (roundTrip T S m req).finalReq = req)
    ∧ (∀ g b0 b1 e, req.getBody = some g → req.body = some b0 →
        g 0 = .ok b1 → g 1 = .error e → retryableClean (T 0) →
        (roundTrip T S m req).result
          = .error (.wrapf ("failed to get request body for retry: "
              ++ goMsg e) e)
        ∧ (roundTrip T S m req).invocations = 1) := by
  have hm0 : 0 ≤ m := by omega
  rw [roundTrip_toNat T S m req hm0]
  obtain ⟨k, hk⟩ : ∃ k, m.toNat = k + 1 := ⟨m.toNat - 1, by omega⟩
  constructor
  · intro hgb hrc
    have hc := cloneBody_noGetBody req 0 hgb
    constructor
    · rcases hT : T 0 with e | resp
      · rw [hk, rtLoop_retry_err T S (k + 1) 0 0 0 [] req req 0 [] e hc hT
          (by omega)]
        have h2 := rtLoop_ge_one T S k (0 + 1) 0 (0 + 1)
          ([] ++ [] ++ [Ev.call 0 req.body] ++ [Ev.sleep (S 0)]) req req 0 []
          (cloneBody_noGetBody req 0 hgb)
        omega
      · rw [hT] at hrc
        have hrc2 : 500 ≤ resp.statusCode ∧ resp.drainErr = none
            ∧ resp.closeErr = none := hrc
        obtain ⟨h500, hdn, hcn⟩ := hrc2
        rw [hk, rtLoop_retry_ok T S (k + 1) 0 0 0 [] req req 0 [] resp hc hT
          (by omega) hdn hcn (by omega)]
        have h2 := rtLoop_ge_one T S k (0 + 1) 0 (0 + 1)
          ([] ++ [] ++ [Ev.call 0 req.body] ++ [Ev.sleep (S 0)]) req req 0 []
          (cloneBody_noGetBody req 0 hgb)
        omega
    · exact rtLoop_noGetBody_req T S (m.toNat + 1) 0 0 0 [] req hgb
  · intro g b0 b1 e hg hb h0 h1 hrc
    have hc1 := cloneBody_some_ok req 0 b0 g b1 hb hg h0
    have hc2 : cloneBody {req with body := some b1} 1 = .error e :=
      cloneBody_some_err {req with body := some b1} 1 b1 g e rfl hg h1
    rcases hT : T 0 with e0 | resp
    · rw [hk, rtLoop_retry_err T S (k + 1) 0 0 0 [] req
        {req with body := some b1} 1 [Ev.regen 0 b1] e0 hc1 hT (by omega),
        rtLoop_cloneFail T S k (0 + 1) 1 (0 + 1) _ _ e hc2]
      exact ⟨rfl, rfl⟩
    · rw [hT] at hrc
      have hrc2 : 500 ≤ resp.statusCode ∧ resp.drainErr = none
          ∧ resp.closeErr = none := hrc
      obtain ⟨h500, hdn, hcn⟩ := hrc2
      rw [hk, rtLoop_retry_ok T S (k + 1) 0 0 0 [] req
        {req with body := some b1} 1 [Ev.regen 0 b1] resp hc1 hT (by omega)
        hdn hcn (by omega),
        rtLoop_cloneFail T S k (0 + 1) 1 (0 + 1) _ _ e hc2]
      exact ⟨rfl, rfl⟩

/-- Witness for C2 (amended): a 500 then a failing second `GetBody` call
aborts after exactly one invocation, wrapping the regeneration failure. -/
theorem C2_body_regen_witness :
    (1:Int) ≤ 1
    ∧ (roundTrip transport500Then200 strat7 1 reqBodySecondFails).result
        = .error (.wrapf ("failed to get request body for retry: "
            ++ goMsg regenSecondErr) regenSecondErr)
    ∧ (roundTrip transport500Then200 strat7 1 reqBodySecondFails).invocations
        = 1 := by
  have h := (C2_body_regen transport500Then200 strat7 1 reqBodySecondFails
    (by decide)).2 getBodySecondFails 5 7 regenSecondErr rfl rfl rfl rfl
    ⟨by norm_num, rfl, rfl⟩
  exact ⟨by decide, h.1, h.2⟩

/-- C5 counterexample: with the cancellation signal fired from the start,
the loop still sleeps the full computed delay (the trace records the full
1000ns sleep between the two invocations) and returns the
exhausted-retries error, not a cancellation error — the source sleeps with
`time.Sleep`, which cannot observe the request's context. -/
theorem C5_counterexample :
    reqCancelledNow.ctxCancelled 0 = true
    ∧ (roundTrip transportBoom (fun _ => 1000) 1 reqCancelledNow).events
        = [Ev.call 0 none, Ev.sleep 1000, Ev.call 1 none]
    ∧ (roundTrip transportBoom (fun _ => 1000) 1 reqCancelledNow).result
        = .error (.wrapf ("all retries failed; last error: " ++ goMsg boomErr)
            boomErr)
    ∧ errIs (.wrapf ("all retries failed; last error: " ++ goMsg boomErr)
        boomErr) goCtxCanceled = false := by
  refine ⟨rfl, by decide, rfl, by decide⟩

/-- C5 (amended): the retry loop never consults the cancellation signal:
the result, invocation count and event trace are identical for any value
of the signal, and every recorded sleep is a full strategy-computed delay
(never truncated by cancellation). -/
theorem C5_no_cancellation_check (T : Nat → Except GoErr Response)
    (S : Nat → Int) (m : Int) (req : Request) (c : Nat → Bool) :
    ((roundTrip T S m (setCtx req c)).result = (roundTrip T S m req).result
      ∧ (roundTrip T S m (setCtx req c)).invocations
          = (roundTrip T S m req).invocations
      ∧ (roundTrip T S m (setCtx req c)).events
          = (roundTrip T S m req).events)
    ∧ (∀ d, d ∈ sleepsOf (roundTrip T S m req).events → ∃ a, d = S a) := by
  constructor
  · unfold roundTrip
    exact rtLoop_ctx T S (m + 1).toNat 0 0 0 [] req c
  · intro d hd
    have hmem : Ev.sleep d ∈ (roundTrip T S m req).events := by
      unfold sleepsOf at hd
      rw [List.mem_filterMap] at hd
      obtain ⟨a, ha, hfa⟩ := hd
      cases a with
      | regen i b => exact Option.noConfusion hfa
      | call i b => exact Option.noConfusion hfa
      | sleep d2 => cases hfa; exact ha
    unfold roundTrip at hmem
    obtain ⟨-, -, -, hsl⟩ := rtLoop_facts T S (m + 1).toNat 0 0 0 [] req
    rcases hsl d hmem with h1 | h2
    · exact absurd h1 (List.not_mem_nil _)
    · exact h2

/-- C6 counterexample: with base = 2^62 + 1 ns, maxDelay = 10 ns and
attempt 2, the product base * 2^attempt overflows int64 and wraps to the
small positive value 4, which the source returns as-is; the claim demands
an overflowed product be clamped to maxDelay = 10. -/
theorem C6_counterexample :
    expBackoffGo (2 ^ 62 + 1) 10 2 = 4
    ∧ (2:Int) ^ 63 ≤ (2 ^ 62 + 1) * 2 ^ 2
    ∧ (4:Int) ≠ 10 := by
  refine ⟨by decide, by norm_num, by decide⟩

/-- C6 (amended): attempt 0 returns base uncapped when base > maxDelay;
otherwise, when the exact product base * 2^attempt is positive and fits in
int64 the result is min(base * 2^attempt, maxDelay); a non-positive
in-range product is clamped to maxDelay; and an overflowing product is
handled through its int64-wrapped value — clamped to maxDelay when that
wrapped value is non-positive or exceeds the cap, and returned as the
wrapped value when it lands in (0, maxDelay]. -/
theorem C6_expBackoff (base maxDelay : Int) (attempt : Nat) :
    (attempt = 0 ∧ maxDelay < base →
        expBackoffGo base maxDelay attempt = base)
    ∧ (¬(attempt = 0 ∧ maxDelay < base) →
        (0 < base * 2 ^ attempt → base * 2 ^ attempt < 2 ^ 63 →
          expBackoffGo base maxDelay attempt
            = min (base * 2 ^ attempt) maxDelay)
        ∧ (-(2 ^ 63) ≤ base * 2 ^ attempt → base * 2 ^ attempt ≤ 0 →
          expBackoffGo base maxDelay attempt = maxDelay)
        ∧ ((2 ^ 63 ≤ base * 2 ^ attempt ∨ base * 2 ^ attempt < -(2 ^ 63)) →
          expBackoffGo base maxDelay attempt = maxDelay
          ∨ (expBackoffGo base maxDelay attempt = wrap64 (base * 2 ^ attempt)
             ∧ 0 < wrap64 (base * 2 ^ attempt)
             ∧ wrap64 (base * 2 ^ attempt) ≤ maxDelay))) := by
  have e63 : (0:Int) < 2 ^ 63 := by positivity
  constructor
  · intro h
    simp only [expBackoffGo, if_pos h]
  · intro h
    have hun : expBackoffGo base maxDelay attempt
        = if maxDelay < wrap64 (base * 2 ^ attempt)
            ∨ wrap64 (base * 2 ^ attempt) ≤ 0 then maxDelay
          else wrap64 (base * 2 ^ attempt) := by
      simp only [expBackoffGo, if_neg h, shl64]
      rw [wrap64_mul_congr]
    refine ⟨?_, ?_, ?_⟩
    · intro hpos hlt
      have hw : wrap64 (base * 2 ^ attempt) = base * 2 ^ attempt :=
        wrap64_eq_self _ (by omega) hlt
      rw [hun, hw]
      by_cases hcap : maxDelay < base * 2 ^ attempt
      · rw [if_pos (Or.inl hcap)]
        exact (min_eq_right (le_of_lt hcap)).symm
      · rw [if_neg (by omega)]
        exact (min_eq_left (by omega)).symm
    · intro hge hle
      have hw : wrap64 (base * 2 ^ attempt) = base * 2 ^ attempt :=
        wrap64_eq_self _ hge (by omega)
      rw [hun, hw, if_pos (Or.inr hle)]
    · intro hov
      rw [hun]
      by_cases hcond : maxDelay < wrap64 (base * 2 ^ attempt)
          ∨ wrap64 (base * 2 ^ attempt) ≤ 0
      · rw [if_pos hcond]
        exact Or.inl rfl
      · rw [if_neg hcond]
        push_neg at hcond
        exact Or.inr ⟨rfl, by omega, by omega⟩

/-- Witness for C6: base 100, maxDelay 1000, attempt 3 yields
min(800, 1000) = 800. -/
theorem C6_expBackoff_witness :
    ¬((3:Nat) = 0 ∧ (1000:Int) < 100)
    ∧ (0:Int) < 100 * 2 ^ 3
    ∧ (100:Int) * 2 ^ 3 < 2 ^ 63
    ∧ expBackoffGo 100 1000 3 = min ((100:Int) * 2 ^ 3) 1000 := by
  have h := ((C6_expBackoff 100 1000 3).2 (by decide)).1 (by norm_num)
    (by norm_num)
  exact ⟨by decide, by norm_num, by norm_num, h⟩

/-- C7: `JitterBackoff` is not total: whenever the exponential value is 0
or 1 (so `baseDelay / 2` is 0), the source calls `rand.Int63n(0)`, which
panics — modelled as `none` — whereas the claim requires the degenerate
zero case to return exactly the exponential value with no jitter.  The
inputs base = maxDelay = 0 (exponential value 0) and base = maxDelay = 1ns
(exponential value 1) exhibit the panic for every random oracle. -/
theorem C7_jitter_panics :
    ∀ rnd : Int → Int,
      jitterBackoffGo 0 0 rnd 0 = none
      ∧ expBackoffGo 0 0 0 = 0
      ∧ jitterBackoffGo 1 1 rnd 0 = none
      ∧ expBackoffGo 1 1 0 = 1 := by
  intro rnd
  exact ⟨rfl, rfl, rfl, rfl⟩

/-- C8: whenever attempt k's outcome is a retryable (status at least 500)
response, a drain failure aborts immediately with an error wrapping the
drain failure after exactly k + 1 invocations (no further retries,
whatever budget remains), the drain error taking priority over any close
error; and when draining succeeds but closing fails, the loop aborts the
same way with an error wrapping the close failure. -/
theorem C8_drain_close (T : Nat → Except GoErr Response) (S : Nat → Int)
    (m : Int) (req : Request) (k : Nat) (hm : 0 ≤ m) (hk : k ≤ m.toNat)
    (hreg : regenInv req) (hpre : ∀ j, j < k → retryableClean (T j)) :
    (∀ r de, T k = .ok r → 500 ≤ r.statusCode → r.drainErr = some de →
        (roundTrip T S m req).result
          = .error (.wrapf ("failed to discard response body: " ++ goMsg de)
              de)
        ∧ (roundTrip T S m req).invocations = k + 1
        ∧ errIs (.wrapf ("failed to discard response body: " ++ goMsg de) de)
            de = true)
    ∧ (∀ r ce, T k = .ok r → 500 ≤ r.statusCode → r.drainErr = none →
        r.closeErr = some ce →
        (roundTrip T S m req).result
          = .error (.wrapf ("failed to close response body: " ++ goMsg ce) ce)
        ∧ (roundTrip T S m req).invocations = k + 1
        ∧ errIs (.wrapf ("failed to close response body: " ++ goMsg ce) ce) ce
            = true) := by
  rw [roundTrip_toNat T S m req hm]
  obtain ⟨hA, hB⟩ := rtLoop_abort T S k (m.toNat + 1) 0 0 0 [] req (by omega)
    hreg (by intro j hj; rw [Nat.zero_add]; exact hpre j hj)
  constructor
  · intro r de hT h500 hdd
    have hT2 : T (0 + k) = .ok r := by rw [Nat.zero_add]; exact hT
    obtain ⟨hres, hinv⟩ := hA r de hT2 (by omega) hdd
    exact ⟨hres, by omega, errIs_wrap_self _ de⟩
  · intro r ce hT h500 hdn hcc
    have hT2 : T (0 + k) = .ok r := by rw [Nat.zero_add]; exact hT
    obtain ⟨hres, hinv⟩ := hB r ce hT2 (by omega) hdn hcc
    exact ⟨hres, by omega, errIs_wrap_self _ ce⟩

/-- Witness for C8: a 500 response whose body fails to drain (and whose
close also fails) aborts after one invocation with the drain error. -/
theorem C8_drain_close_witness :
    (0:Int) ≤ 1
    ∧ (roundTrip transportDrainFail strat7 1 reqPlain).result
        = .error (.wrapf ("failed to discard response body: "
            ++ goMsg drainErrC) drainErrC)
    ∧ (roundTrip transportDrainFail strat7 1 reqPlain).invocations = 1 := by
  have h := (C8_drain_close transportDrainFail strat7 1 reqPlain 0 (by decide)
    (by decide) (by intro g hg hb; simp [reqPlain] at hg)
    (by intro j hj; exact absurd hj (Nat.not_lt_zero j))).1
    ⟨500, some drainErrC, some closeErrC⟩ drainErrC rfl (by norm_num) rfl
  exact ⟨by decide, h.1, h.2.1⟩

end Httpx
